import Mathlib

/-!
Verification of the checksum-calculator CLI (`src/main.py`).

The program computes an MD5 checksum (Base64-encoded) of a local file or of
a resource fetched from an HTTP/HTTPS URL.  This file shallowly embeds the
program: bytes are `Nat`s below 256, 32-bit arithmetic is `Nat` arithmetic
taken `% 2^32`, the filesystem and the network are explicit oracles, and
Python exceptions become `Option`/`Except` results.  Printed lines are
modelled by the tagged type `Msg` recording which `print` statement ran.
-/

namespace ChecksumCalculator

/-! ### Constants (main.py lines 14-15) -/

def CHUNK_SIZE : Nat := 8192

def MAX_MEMORY_SIZE : Int := 1 * 1024 * 1024

/-! ### MD5 (model of `hashlib.md5`)

A byte is a `Nat` below 256; a 32-bit word is a `Nat` kept below `2^32`
by reducing `% M32` after every arithmetic operation, exactly as the
machine arithmetic underlying `hashlib.md5` does. -/

def M32 : Nat := 4294967296

/-- Splits a byte list into consecutive chunks.  `acc` is the current chunk
being built (reversed), `c` the remaining capacity of that chunk. -/
def chunksAux (k : Nat) : List Nat → List Nat → Nat → List (List Nat)
  | [], acc, _ => if acc = [] then [] else [acc.reverse]
  | x :: xs, acc, 0 => acc.reverse :: chunksAux k xs [x] (k - 1)
  | x :: xs, acc, c + 1 => chunksAux k xs (x :: acc) c

/-- All consecutive chunks of size `k` of a byte list (last one may be
shorter).  Models repeated `read(k)` calls on a stream. -/
def chunksOf (k : Nat) (l : List Nat) : List (List Nat) :=
  chunksAux k l [] k

/-- The MD5 sine-derived round constants. -/
def md5K : List Nat :=
  [0xd76aa478, 0xe8c7b756, 0x242070db, 0xc1bdceee,
   0xf57c0faf, 0x4787c62a, 0xa8304613, 0xfd469501,
   0x698098d8, 0x8b44f7af, 0xffff5bb1, 0x895cd7be,
   0x6b901122, 0xfd987193, 0xa679438e, 0x49b40821,
   0xf61e2562, 0xc040b340, 0x265e5a51, 0xe9b6c7aa,
   0xd62f105d, 0x02441453, 0xd8a1e681, 0xe7d3fbc8,
   0x21e1cde6, 0xc33707d6, 0xf4d50d87, 0x455a14ed,
   0xa9e3e905, 0xfcefa3f8, 0x676f02d9, 0x8d2a4c8a,
   0xfffa3942, 0x8771f681, 0x6d9d6122, 0xfde5380c,
   0xa4beea44, 0x4bdecfa9, 0xf6bb4b60, 0xbebfbc70,
   0x289b7ec6, 0xeaa127fa, 0xd4ef3085, 0x04881d05,
   0xd9d4d039, 0xe6db99e5, 0x1fa27cf8, 0xc4ac5665,
   0xf4292244, 0x432aff97, 0xab9423a7, 0xfc93a039,
   0x655b59c3, 0x8f0ccc92, 0xffeff47d, 0x85845dd1,
   0x6fa87e4f, 0xfe2ce6e0, 0xa3014314, 0x4e0811a1,
   0xf7537e82, 0xbd3af235, 0x2ad7d2bb, 0xeb86d391]

/-- The MD5 per-round left-rotation amounts. -/
def md5S : List Nat :=
  [7, 12, 17, 22, 7, 12, 17, 22, 7, 12, 17, 22, 7, 12, 17, 22,
   5, 9, 14, 20, 5, 9, 14, 20, 5, 9, 14, 20, 5, 9, 14, 20,
   4, 11, 16, 23, 4, 11, 16, 23, 4, 11, 16, 23, 4, 11, 16, 23,
   6, 10, 15, 21, 6, 10, 15, 21, 6, 10, 15, 21, 6, 10, 15, 21]

/-- 32-bit left rotation. -/
def rotl32 (x s : Nat) : Nat :=
  ((x <<< s) ||| (x >>> (32 - s))) % M32

/-- 32-bit bitwise complement (valid for `x < 2^32`). -/
def bnot32 (x : Nat) : Nat := x ^^^ 0xFFFFFFFF

/-- Little-endian word from a byte list. -/
def leWord (bs : List Nat) : Nat :=
  bs.foldr (fun b acc => b + 256 * acc) 0

/-- The four little-endian bytes of a 32-bit word. -/
def wordLE (w : Nat) : List Nat :=
  [w % 256, (w >>> 8) % 256, (w >>> 16) % 256, (w >>> 24) % 256]

/-- MD5 padding: append `0x80`, zero bytes up to 56 mod 64, then the
bit length as eight little-endian bytes. -/
def md5pad (msg : List Nat) : List Nat :=
  let L := msg.length
  msg ++ [0x80] ++ List.replicate ((119 - L % 64) % 64) 0
      ++ (List.range 8).map (fun i => ((8 * L) >>> (8 * i)) % 256)

/-- One of the 64 MD5 rounds on the state `(A, B, C, D)`;
`M` is the current block as sixteen words. -/
def md5step (M : List Nat) (st : Nat × Nat × Nat × Nat) (i : Nat) :
    Nat × Nat × Nat × Nat :=
  let A := st.1
  let B := st.2.1
  let C := st.2.2.1
  let D := st.2.2.2
  let F :=
    if i < 16 then (B &&& C) ||| (bnot32 B &&& D)
    else if i < 32 then (D &&& B) ||| (bnot32 D &&& C)
    else if i < 48 then B ^^^ C ^^^ D
    else C ^^^ (B ||| bnot32 D)
  let g :=
    if i < 16 then i
    else if i < 32 then (5 * i + 1) % 16
    else if i < 48 then (3 * i + 5) % 16
    else (7 * i) % 16
  let T := (F + A + md5K.getD i 0 + M.getD g 0) % M32
  (D, (B + rotl32 T (md5S.getD i 0)) % M32, B, C)

/-- Absorb one 64-byte block into the MD5 state. -/
def md5block (st : Nat × Nat × Nat × Nat) (block : List Nat) :
    Nat × Nat × Nat × Nat :=
  let M := (chunksOf 4 block).map leWord
  let r := (List.range 64).foldl (md5step M) st
  ((st.1 + r.1) % M32, (st.2.1 + r.2.1) % M32,
   (st.2.2.1 + r.2.2.1) % M32, (st.2.2.2 + r.2.2.2) % M32)

def md5init : Nat × Nat × Nat × Nat :=
  (0x67452301, 0xefcdab89, 0x98badcfe, 0x10325476)

/-- The 16-byte digest serialisation of a final MD5 state. -/
def md5digestOut (st : Nat × Nat × Nat × Nat) : List Nat :=
  wordLE st.1 ++ wordLE st.2.1 ++ wordLE st.2.2.1 ++ wordLE st.2.2.2

/-- The 16-byte MD5 digest of a byte sequence. -/
def md5 (msg : List Nat) : List Nat :=
  md5digestOut ((chunksOf 64 (md5pad msg)).foldl md5block md5init)

/-- The incremental state of `hashlib.md5()`: the bytes absorbed so far.
`update` appends; `digest` hashes the absorbed bytes. -/
def md5Update (st chunk : List Nat) : List Nat := st ++ chunk

def md5Digest (st : List Nat) : List Nat := md5 st

/-! ### Base64 (model of `base64.b64encode`) -/

def b64alphabet : List Char :=
  "ABCDEFGHIJKLMNOPQRSTUVWXYZabcdefghijklmnopqrstuvwxyz0123456789+/".toList

def b64char (n : Nat) : Char := b64alphabet.getD n 'A'

/-- Standard Base64 of a byte list, as characters, with `=` padding and no
line wrapping. -/
def b64encodeList : List Nat → List Char
  | a :: b :: c :: rest =>
      let n := a * 65536 + b * 256 + c
      b64char (n / 262144) :: b64char (n / 4096 % 64) ::
        b64char (n / 64 % 64) :: b64char (n % 64) :: b64encodeList rest
  | [a, b] =>
      let n := a * 65536 + b * 256
      [b64char (n / 262144), b64char (n / 4096 % 64), b64char (n / 64 % 64), '=']
  | [a] =>
      let n := a * 65536
      [b64char (n / 262144), b64char (n / 4096 % 64), '=', '=']
  | [] => []

/-- `base64.b64encode(..).decode('utf-8')`. -/
def b64encode (bs : List Nat) : String := String.mk (b64encodeList bs)

/-! ### `urllib.parse.urlparse`, as used by `is_url` (main.py lines 18-21)

Model of CPython's `urlsplit` at the depth `is_url` exercises: extraction
of the scheme, and the `Invalid IPv6 URL` `ValueError` raised when the
authority component contains a mismatched square bracket.  (The extra
bracketed-host validation added in CPython 3.11 raises in strictly more
cases and is not modelled; no claim depends on it.) -/

def scheme_chars : List Char :=
  "abcdefghijklmnopqrstuvwxyzABCDEFGHIJKLMNOPQRSTUVWXYZ0123456789+-.".toList

/-- Split a character list at its first `':'`, if any. -/
def splitColon : List Char → Option (List Char × List Char)
  | [] => none
  | c :: cs =>
      if c = ':' then some ([], cs)
      else
        match splitColon cs with
        | some (a, b) => some (c :: a, b)
        | none => none

/-- `(scheme, rest)` of a URL string: the lowercased prefix before the first
`':'` when that prefix is nonempty, starts with an ASCII letter and consists
of scheme characters; otherwise scheme is empty and the rest is the whole
string. -/
def schemeSplit (s : String) : String × String :=
  match splitColon s.toList with
  | some (pre, post) =>
      if !pre.isEmpty && (pre.headD ' ').isAlpha
          && pre.all (fun c => scheme_chars.contains c) then
        (String.mk (pre.map Char.toLower), String.mk post)
      else ("", s)
  | none => ("", s)

/-- The scheme component `urlparse` would report. -/
def urlparse_scheme (s : String) : String := (schemeSplit s).1

/-- Whether `urlparse` raises `ValueError` on this string: the post-scheme
part starts with `//` and the authority (up to the first `/`, `?` or `#`)
contains `[` without `]` or `]` without `[`. -/
def urlparse_raises (s : String) : Bool :=
  let rest := (schemeSplit s).2
  if rest.toList.take 2 = ['/', '/'] then
    let nl := (rest.toList.drop 2).takeWhile
        (fun c => !(c == '/' || c == '?' || c == '#'))
    (nl.contains '[' && !nl.contains ']') || (nl.contains ']' && !nl.contains '[')
  else false

/-- `is_url` (main.py lines 18-21).  `Except.error ()` models the uncaught
`ValueError` that `urlparse` can raise. -/
def is_url (s : String) : Except Unit Bool :=
  if urlparse_raises s then Except.error ()
  else Except.ok (urlparse_scheme s == "http" || urlparse_scheme s == "https")

/-! ### Printed lines

One constructor per `print` statement of main.py, carrying the interpolated
values the claims care about.  The two identical
`"Error: Cannot download file from '{url}'"` messages (lines 52 and 79)
share one constructor. -/

inductive Msg where
  | usage
  | errFileNotFound (p : String)
  | errPermission (p : String)
  | errIsDirectory (p : String)
  | errOS (p : String)
  | errUnexpectedLocal (p : String)
  | errSizeProbe (u : String)
  | errSizeProbeUnexpected (u : String)
  | errDownload (u : String)
  | errMemory
  | errUnexpectedMem (u : String)
  | errTempCreate
  | errUnexpectedDl (u : String)
  | warnUnknownSize
  | infoFallback
  | infoSizeMem (n : Int)
  | infoSizeDl (n : Int)
  | checksumLine (c : String)
deriving DecidableEq

/-! ### Filesystem and network oracles -/

/-- Outcome of `open(path, 'rb')` plus reading: the byte content, or the
exception class raised (main.py lines 110-124). -/
inductive FileContent where
  | found (content : List Nat)
  | notFound
  | permissionDenied
  | isADirectory
  | osError
  | otherError
deriving DecidableEq

abbrev FileSystem := String → FileContent

/-- Outcome of the HEAD probe `urlopen` (main.py lines 27-29). -/
inductive HeadOutcome where
  | ok (contentLength : Option String)
  | netError
  | unexpected
deriving DecidableEq

/-- Outcome of a GET `urlopen` plus read: the payload bytes, a
`URLError`/`HTTPError`, a `MemoryError`, or any other exception. -/
inductive GetOutcome where
  | ok (body : List Nat)
  | netError
  | memError
  | unexpected
deriving DecidableEq

/-- The oracles consulted inside `compute_checksum_from_download`:
whether `NamedTemporaryFile` succeeds, the GET outcome, and whether the
`os.unlink` call in the `finally` block succeeds (`false` models it
raising `OSError`). -/
structure DlWorld where
  tempCreateOk : Bool
  get : GetOutcome
  unlinkOk : Bool
deriving DecidableEq

/-- The full environment of one invocation. -/
structure World where
  fs : FileSystem
  head : HeadOutcome
  memGet : GetOutcome
  dl : DlWorld

/-! ### Python `int(str)` (used on the Content-Length header) -/

def isPySpace (c : Char) : Bool :=
  c == ' ' || c == '\t' || c == '\n' || c == '\r' || c == '\x0b' || c == '\x0c'

def digitsToNat (ds : List Char) : Nat :=
  ds.foldl (fun a c => 10 * a + (c.toNat - 48)) 0

/-- `int(s)` for a decimal string: strips surrounding whitespace, accepts an
optional sign and a nonempty run of ASCII digits; `none` models the
`ValueError` raised otherwise.  (Digit-grouping underscores and non-ASCII
digits are not modelled.) -/
def pyInt (s : String) : Option Int :=
  let t := ((s.toList.dropWhile isPySpace).reverse.dropWhile isPySpace).reverse
  let signed : Int × List Char :=
    match t with
    | '+' :: r => (1, r)
    | '-' :: r => (-1, r)
    | r => (1, r)
  if signed.2.isEmpty || !signed.2.all Char.isDigit then none
  else some (signed.1 * (digitsToNat signed.2 : Int))

/-! ### `get_remote_file_size` (main.py lines 24-38)

Returns the probed size (`none` = unknown) and the lines it printed.
A missing header returns `None`; an empty header string is falsy and
returns `None`; a header that `int()` rejects raises `ValueError`, caught
by the same handler as `URLError`/`HTTPError`. -/

def get_remote_file_size (h : HeadOutcome) (u : String) :
    Option Int × List Msg :=
  match h with
  | .ok none => (none, [])
  | .ok (some s) =>
      if s = "" then (none, [])
      else
        match pyInt s with
        | some n => (some n, [])
        | none => (none, [Msg.errSizeProbe u])
  | .netError => (none, [Msg.errSizeProbe u])
  | .unexpected => (none, [Msg.errSizeProbeUnexpected u])

/-! ### `compute_checksum` (main.py lines 95-124) -/

/-- Chunked local hashing: read the file in `CHUNK_SIZE` chunks, feed each
to the incremental MD5 state, Base64-encode the digest.  Each exception
class becomes its diagnostic line and `none`. -/
def compute_checksum (fs : FileSystem) (p : String) :
    Option String × List Msg :=
  match fs p with
  | .found content =>
      let st := (chunksOf CHUNK_SIZE content).foldl md5Update []
      (some (b64encode (md5Digest st)), [])
  | .notFound => (none, [Msg.errFileNotFound p])
  | .permissionDenied => (none, [Msg.errPermission p])
  | .isADirectory => (none, [Msg.errIsDirectory p])
  | .osError => (none, [Msg.errOS p])
  | .otherError => (none, [Msg.errUnexpectedLocal p])

/-- The sequence of filesystem operations `compute_checksum` performs on its
argument (lines 99-104): a single `open(file_path, 'rb')`, followed by
chunked reading and hashing when the open succeeds.  The source contains no
`os.path.exists` call before the open. -/
inductive LocalOp where
  | checkExists (p : String)
  | openRead (p : String)
  | hashData
deriving DecidableEq

def compute_checksum_ops (fs : FileSystem) (p : String) : List LocalOp :=
  match fs p with
  | .found _ => [LocalOp.openRead p, LocalOp.hashData]
  | _ => [LocalOp.openRead p]

/-! ### `compute_checksum_from_memory` (main.py lines 41-59) -/

/-- Single full download, one-shot MD5 of the whole buffer. -/
def compute_checksum_from_memory (g : GetOutcome) (u : String) :
    Option String × List Msg :=
  match g with
  | .ok body => (some (b64encode (md5 body)), [])
  | .netError => (none, [Msg.errDownload u])
  | .memError => (none, [Msg.errMemory])
  | .unexpected => (none, [Msg.errUnexpectedMem u])

/-! ### `compute_checksum_from_download` (main.py lines 62-92) -/

/-- The temporary file's name, as handed out by `NamedTemporaryFile`. -/
def temp_name : String := "tmpfile"

/-- The `finally` block (lines 87-92): if `temp_path` was set and the file
exists, `os.unlink` is attempted — when it succeeds the file is removed,
but when it raises `OSError` the exception is swallowed by
`except OSError: pass` and the file stays behind; when `temp_path` was
never set, no file was created.  Returns whether a temporary file remains
afterwards. -/
def finally_cleanup (created unlinkOk : Bool) : Bool :=
  match created, unlinkOk with
  | true, true => false
  | true, false => true
  | false, _ => false

/-- Download in `CHUNK_SIZE` chunks into a fresh temporary file, hash that
file with `compute_checksum`, and unlink the temporary file in `finally`.
Returns the result with its printed lines, and whether a temporary file
remains on disk after the call. -/
def compute_checksum_from_download (d : DlWorld) (u : String) :
    (Option String × List Msg) × Bool :=
  let body :=
    if d.tempCreateOk then
      match d.get with
      | .ok bytes =>
          let written := (chunksOf CHUNK_SIZE bytes).foldl (fun a b => a ++ b) []
          compute_checksum
            (fun q => if q = temp_name then .found written else .notFound)
            temp_name
      | .netError => (none, [Msg.errDownload u])
      | .memError => (none, [Msg.errUnexpectedDl u])
      | .unexpected => (none, [Msg.errUnexpectedDl u])
    else (none, [Msg.errTempCreate])
  (body, finally_cleanup d.tempCreateOk d.unlinkOk)

/-! ### `main` (main.py lines 127-165) -/

/-- The three-way strategy selection of `main` on the probed size
(lines 139-157). -/
def strategy_flow (sz : Option Int) (mg : GetOutcome) (d : DlWorld)
    (u : String) : Option String × List Msg :=
  match sz with
  | none =>
      let m := compute_checksum_from_memory mg u
      match m.1 with
      | some c => (some c, Msg.warnUnknownSize :: m.2)
      | none =>
          let r := compute_checksum_from_download d u
          (r.1.1, Msg.warnUnknownSize :: (m.2 ++ Msg.infoFallback :: r.1.2))
  | some n =>
      if n < MAX_MEMORY_SIZE then
        let m := compute_checksum_from_memory mg u
        (m.1, Msg.infoSizeMem n :: m.2)
      else
        let r := compute_checksum_from_download d u
        (r.1.1, Msg.infoSizeDl n :: r.1.2)

/-- The whole URL branch of `main`: probe the size, then select a strategy. -/
def handle_url (h : HeadOutcome) (mg : GetOutcome) (d : DlWorld)
    (u : String) : Option String × List Msg :=
  let p := get_remote_file_size h u
  let r := strategy_flow p.1 mg d u
  (r.1, p.2 ++ r.2)

/-- Classification and dispatch: the `if is_url(...)` of `main`
(lines 135-160).  `Except.error` is the `ValueError` escaping `urlparse`. -/
def resolve (w : World) (p : String) : Except Unit (Option String × List Msg) :=
  match is_url p with
  | .error e => .error e
  | .ok true => .ok (handle_url w.head w.memGet w.dl p)
  | .ok false => .ok (compute_checksum w.fs p)

/-- How the process terminated: via `sys.exit`/normal return with an exit
code, or by an exception unwinding out of `main`. -/
inductive Outcome where
  | exited (code : Nat) (out : List Msg)
  | crashed (out : List Msg)
deriving DecidableEq

/-- The process exit code: CPython exits with status 1 on an uncaught
exception. -/
def Outcome.exitCode : Outcome → Nat
  | .exited c _ => c
  | .crashed _ => 1

def Outcome.outLines : Outcome → List Msg
  | .exited _ o => o
  | .crashed o => o

/-- `main` on `sys.argv` (program name included): usage check, classify,
compute, then `if checksum:` prints the checksum line and exits 0, else
exits 1. -/
def main (w : World) (argv : List String) : Outcome :=
  if argv.length ≠ 2 then .exited 1 [Msg.usage]
  else
    match resolve w (argv.getD 1 "") with
    | .error _ => .crashed []
    | .ok (some c, out) =>
        if c = "" then .exited 1 out
        else .exited 0 (out ++ [Msg.checksumLine c])
    | .ok (none, out) => .exited 1 out

/-! ### Helper lemmas -/

/-- Concatenating the chunks produced by `chunksAux` recovers the pending
accumulator followed by the remaining input. -/
theorem chunksAux_foldl (k : Nat) (l : List Nat) :
    ∀ (acc : List Nat) (c : Nat) (init : List Nat),
      (chunksAux k l acc c).foldl (fun a b => a ++ b) init
        = init ++ acc.reverse ++ l := by
  induction l with
  | nil =>
      intro acc c init
      by_cases h : acc = [] <;> simp [chunksAux, h]
  | cons x xs ih =>
      intro acc c init
      cases c with
      | zero => simp [chunksAux, ih]
      | succ c => simp [chunksAux, ih]

/-- Reading a byte sequence in chunks and concatenating recovers it. -/
theorem chunks_join (k : Nat) (l : List Nat) :
    (chunksOf k l).foldl (fun a b => a ++ b) [] = l := by
  simpa using chunksAux_foldl k l [] k []

/-- Feeding the chunks of a byte sequence to the incremental MD5 state
absorbs exactly that byte sequence. -/
theorem md5Update_fold (k : Nat) (l : List Nat) :
    (chunksOf k l).foldl md5Update [] = l := by
  show (chunksOf k l).foldl (fun a b => a ++ b) [] = l
  exact chunks_join k l

/-- The Base64 text of any serialised MD5 state has 24 characters. -/
theorem b64_digestOut_length (st : Nat × Nat × Nat × Nat) :
    (b64encodeList (md5digestOut st)).length = 24 := by
  obtain ⟨a, b, c, d⟩ := st
  simp [md5digestOut, wordLE, b64encodeList]

/-- The checksum string of any byte sequence has exactly 24 characters. -/
theorem b64_md5_length (bs : List Nat) : (b64encode (md5 bs)).length = 24 := by
  have h : ∀ cs : List Char, (String.mk cs).length = cs.length := fun _ => rfl
  rw [b64encode, h, md5, b64_digestOut_length]

/-- The checksum string of any byte sequence is nonempty. -/
theorem b64_md5_ne_empty (bs : List Nat) : b64encode (md5 bs) ≠ "" := by
  intro h
  have := b64_md5_length bs
  rw [h] at this
  simp at this

/-- On a readable file, `compute_checksum` hashes the whole content. -/
theorem compute_checksum_found (fs : FileSystem) (p : String)
    (content : List Nat) (h : fs p = FileContent.found content) :
    compute_checksum fs p = (some (b64encode (md5 content)), []) := by
  simp [compute_checksum, h, md5Digest, md5Update_fold]

/-- Any checksum `compute_checksum` returns has 24 characters. -/
theorem compute_checksum_length (fs : FileSystem) (p : String) (c : String)
    (h : (compute_checksum fs p).1 = some c) : c.length = 24 := by
  cases hf : fs p <;> simp [compute_checksum, hf] at h
  case found content =>
    subst h
    rw [md5Digest, b64_md5_length]

/-- Any checksum `compute_checksum_from_memory` returns has 24 characters. -/
theorem memory_length (g : GetOutcome) (u : String) (c : String)
    (h : (compute_checksum_from_memory g u).1 = some c) : c.length = 24 := by
  cases g <;> simp [compute_checksum_from_memory] at h
  case ok body =>
    subst h
    exact b64_md5_length body

/-- Any checksum `compute_checksum_from_download` returns has 24
characters. -/
theorem download_length (d : DlWorld) (u : String) (c : String)
    (h : (compute_checksum_from_download d u).1.1 = some c) : c.length = 24 := by
  obtain ⟨tc, g, ul⟩ := d
  cases tc
  · simp [compute_checksum_from_download] at h
  · cases g <;> simp [compute_checksum_from_download] at h
    case ok body =>
      exact compute_checksum_length _ _ _ h

/-- A 24-character string is not empty. -/
theorem length_24_ne_empty (c : String) (h : c.length = 24) : c ≠ "" := by
  intro he
  rw [he] at h
  simp at h

/-- `strategy_flow` never returns a checksum of a length other than 24. -/
theorem strategy_length (sz : Option Int) (mg : GetOutcome) (d : DlWorld)
    (u : String) (c : String) (h : (strategy_flow sz mg d u).1 = some c) :
    c.length = 24 := by
  cases sz with
  | none =>
      rcases hm : (compute_checksum_from_memory mg u).1 with _ | c1
      · simp [strategy_flow, hm] at h
        exact download_length _ _ _ h
      · simp [strategy_flow, hm] at h
        subst h
        exact memory_length _ _ _ hm
  | some n =>
      by_cases hn : n < MAX_MEMORY_SIZE <;> simp [strategy_flow, hn] at h
      · exact memory_length _ _ _ h
      · exact download_length _ _ _ h

/-- `handle_url` never returns a checksum of a length other than 24. -/
theorem handle_url_length (hd : HeadOutcome) (mg : GetOutcome) (d : DlWorld)
    (u : String) (c : String) (h : (handle_url hd mg d u).1 = some c) :
    c.length = 24 := by
  exact strategy_length _ mg d u c h

/-- Every checksum `resolve` yields has 24 characters. -/
theorem resolve_length (w : World) (p : String) (c : String) (out : List Msg)
    (h : resolve w p = Except.ok (some c, out)) : c.length = 24 := by
  unfold resolve at h
  rcases hu : is_url p with _ | b <;> rw [hu] at h
  · exact absurd h (by simp)
  · cases b
    · simp at h
      exact compute_checksum_length w.fs p c (by rw [h])
    · simp at h
      exact handle_url_length w.head w.memGet w.dl p c (by rw [h])

/-- `compute_checksum` never prints a checksum line itself. -/
theorem compute_checksum_no_ck (fs : FileSystem) (p : String) (c : String) :
    Msg.checksumLine c ∉ (compute_checksum fs p).2 := by
  cases hf : fs p <;> simp [compute_checksum, hf]

/-- `compute_checksum_from_memory` never prints a checksum line. -/
theorem memory_no_ck (g : GetOutcome) (u : String) (c : String) :
    Msg.checksumLine c ∉ (compute_checksum_from_memory g u).2 := by
  cases g <;> simp [compute_checksum_from_memory]

/-- `compute_checksum_from_download` never prints a checksum line. -/
theorem download_no_ck (d : DlWorld) (u : String) (c : String) :
    Msg.checksumLine c ∉ (compute_checksum_from_download d u).1.2 := by
  obtain ⟨tc, g, ul⟩ := d
  cases tc
  · simp [compute_checksum_from_download]
  · cases g <;> simp [compute_checksum_from_download]
    exact compute_checksum_no_ck _ _ _

/-- The size probe never prints a checksum line. -/
theorem probe_no_ck (h : HeadOutcome) (u : String) (c : String) :
    Msg.checksumLine c ∉ (get_remote_file_size h u).2 := by
  cases h with
  | ok cl =>
      cases cl with
      | none => simp [get_remote_file_size]
      | some s =>
          by_cases hs : s = "" <;> simp [get_remote_file_size, hs]
          cases hp : pyInt s <;> simp
  | netError => simp [get_remote_file_size]
  | unexpected => simp [get_remote_file_size]

/-- `strategy_flow` never prints a checksum line. -/
theorem strategy_no_ck (sz : Option Int) (mg : GetOutcome) (d : DlWorld)
    (u : String) (c : String) : Msg.checksumLine c ∉ (strategy_flow sz mg d u).2 := by
  cases sz with
  | none =>
      rcases hm : (compute_checksum_from_memory mg u).1 with _ | c1 <;>
        simp [strategy_flow, hm]
      · exact ⟨fun h => memory_no_ck mg u c h,
          fun h => download_no_ck d u c h⟩
      · exact fun h => memory_no_ck mg u c h
  | some n =>
      by_cases hn : n < MAX_MEMORY_SIZE <;> simp [strategy_flow, hn]
      · exact fun h => memory_no_ck mg u c h
      · exact fun h => download_no_ck d u c h

/-- `handle_url` never prints a checksum line. -/
theorem handle_url_no_ck (hd : HeadOutcome) (mg : GetOutcome) (d : DlWorld)
    (u : String) (c : String) : Msg.checksumLine c ∉ (handle_url hd mg d u).2 := by
  rw [handle_url]
  simp only [List.mem_append]
  rintro (h | h)
  · exact probe_no_ck hd u c h
  · exact strategy_no_ck _ mg d u c h

/-- No component below `main` prints a checksum line: whatever `resolve`
returns, its printed lines contain none. -/
theorem resolve_no_ck (w : World) (p : String) (r : Option String)
    (out : List Msg) (c : String) (h : resolve w p = Except.ok (r, out)) :
    Msg.checksumLine c ∉ out := by
  unfold resolve at h
  rcases hu : is_url p with _ | b <;> rw [hu] at h
  · exact absurd h (by simp)
  · cases b <;> simp at h
    · have := compute_checksum_no_ck w.fs p c
      rw [h] at this
      exact this
    · have := handle_url_no_ck w.head w.memGet w.dl p c
      rw [h] at this
      exact this

/-! ### Concrete environments used by witnesses -/

/-- An environment where every path is absent and every network request
fails. -/
def W0 : World :=
  ⟨fun _ => FileContent.notFound, HeadOutcome.netError, GetOutcome.netError,
   ⟨true, GetOutcome.netError, true⟩⟩

/-- An environment where every path holds the bytes `b"hello"`. -/
def Whello : World :=
  ⟨fun _ => FileContent.found [104, 101, 108, 108, 111], HeadOutcome.netError,
   GetOutcome.netError, ⟨true, GetOutcome.netError, true⟩⟩

/-! ### Claims -/

/-- Claim C1: for every readable local file, `compute_checksum` returns the
Base64 encoding (no line wrapping) of the MD5 digest of the file's entire
byte content, read in 8192-byte chunks.  The concrete scenarios — a file
holding `b"hello"` yields `XUFAKrxLKna5cZ2REBfFkg==` and the empty file
yields `1B2M2Y8AsgTpgAmY7PhCfg==` — are checked in the witness. -/
theorem c1_local_checksum_correct (fs : FileSystem) (p : String)
    (content : List Nat) (h : fs p = FileContent.found content) :
    compute_checksum fs p = (some (b64encode (md5 content)), []) :=
  compute_checksum_found fs p content h

set_option maxRecDepth 400000 in
/-- Witness for C1: the two concrete scenario files. -/
theorem c1_local_checksum_correct_witness :
    compute_checksum (fun _ => FileContent.found [104, 101, 108, 108, 111])
        "hello.txt" = (some "XUFAKrxLKna5cZ2REBfFkg==", [])
      ∧ compute_checksum (fun _ => FileContent.found []) "empty.txt"
        = (some "1B2M2Y8AsgTpgAmY7PhCfg==", []) :=
  ⟨(c1_local_checksum_correct _ "hello.txt" [104, 101, 108, 108, 111]
      rfl).trans (by decide),
   (c1_local_checksum_correct _ "empty.txt" [] rfl).trans (by decide)⟩

/-- Counterexample to C3 as stated: on a run whose download and hashing
both succeed but whose `os.unlink` raises `OSError`, the
`except OSError: pass` of the `finally` block (main.py lines 89-92)
swallows the failure and the temporary file remains on disk after the
operation returns. -/
theorem c3_counterexample :
    (compute_checksum_from_download
        ⟨true, GetOutcome.ok [1, 2, 3], false⟩ "http://h/f").2 = true
      ∧ (compute_checksum_from_download
        ⟨true, GetOutcome.ok [1, 2, 3], false⟩ "http://h/f").1.1 ≠ none :=
  ⟨rfl, by decide⟩

/-- Claim C3, amended: the `finally` block attempts removal of the
temporary file on every exit path — success, expected error, unexpected
error — so the file is removed whenever the `os.unlink` call succeeds,
and trivially no file remains when `NamedTemporaryFile` itself failed;
only when `os.unlink` itself raises `OSError` is that failure swallowed
and the file left behind. -/
theorem c3_temp_file_removed (d : DlWorld) (u : String) :
    (d.unlinkOk = true → (compute_checksum_from_download d u).2 = false)
      ∧ (d.tempCreateOk = false →
          (compute_checksum_from_download d u).2 = false)
      ∧ (compute_checksum_from_download d u).2
        = finally_cleanup d.tempCreateOk d.unlinkOk := by
  obtain ⟨tc, g, ul⟩ := d
  refine ⟨?_, ?_, rfl⟩
  · intro h
    simp only at h
    subst h
    cases tc <;> rfl
  · intro h
    simp only at h
    subst h
    rfl

/-- Witness for C3 (amended): with a succeeding `os.unlink` no temporary
file remains after a failed download, and none remains when the temporary
file could not be created in the first place. -/
theorem c3_temp_file_removed_witness :
    (compute_checksum_from_download
        ⟨true, GetOutcome.netError, true⟩ "http://h/f").2 = false
      ∧ (compute_checksum_from_download
        ⟨false, GetOutcome.ok [1], true⟩ "http://h/f").2 = false :=
  ⟨(c3_temp_file_removed ⟨true, GetOutcome.netError, true⟩ "http://h/f").1
     rfl,
   (c3_temp_file_removed ⟨false, GetOutcome.ok [1], true⟩ "http://h/f").2.1
     rfl⟩

/-- Claim C5: for the same underlying byte sequence, the in-memory strategy
(single full read, one-shot MD5) and the temp-file strategy (chunked spool
to disk, chunked MD5 via `compute_checksum`) produce identical checksum
strings, namely the Base64 MD5 of those bytes. -/
theorem c5_strategies_agree (body : List Nat) (u : String) (d : DlWorld)
    (h1 : d.tempCreateOk = true) (h2 : d.get = GetOutcome.ok body) :
    (compute_checksum_from_download d u).1.1
        = (compute_checksum_from_memory (GetOutcome.ok body) u).1
      ∧ (compute_checksum_from_download d u).1.1
        = some (b64encode (md5 body)) := by
  obtain ⟨tc, g, ul⟩ := d
  simp only at h1 h2
  subst h1
  subst h2
  have hd : (compute_checksum_from_download ⟨true, GetOutcome.ok body, ul⟩ u).1.1
      = some (b64encode (md5 body)) := by
    rw [compute_checksum_from_download]
    simp only [if_pos]
    rw [chunks_join CHUNK_SIZE body,
      compute_checksum_found _ _ body (by simp)]
  exact ⟨hd.trans (by rfl), hd⟩

set_option maxRecDepth 400000 in
/-- Witness for C5 on the concrete payload `[1, 2, 3]`. -/
theorem c5_strategies_agree_witness :
    (compute_checksum_from_download ⟨true, GetOutcome.ok [1, 2, 3], true⟩
        "http://h/f").1.1
      = (compute_checksum_from_memory (GetOutcome.ok [1, 2, 3])
        "http://h/f").1 :=
  (c5_strategies_agree [1, 2, 3] "http://h/f"
    ⟨true, GetOutcome.ok [1, 2, 3], true⟩ rfl rfl).1

/-- Claim C2: remote strategy selection.  With a probed size strictly below
1,048,576 bytes the in-memory strategy is used; with a known size at or
above the threshold the temp-file strategy is used; with unknown size the
in-memory strategy is attempted first and the temp-file strategy only on
its failure; if both fail the invocation exits with code 1. -/
theorem c2_strategy_selection :
    (∀ (h : HeadOutcome) (mg : GetOutcome) (d : DlWorld) (u : String)
        (n : Int), (get_remote_file_size h u).1 = some n →
        n < MAX_MEMORY_SIZE →
          (handle_url h mg d u).1 = (compute_checksum_from_memory mg u).1)
    ∧ (∀ (h : HeadOutcome) (mg : GetOutcome) (d : DlWorld) (u : String)
        (n : Int), (get_remote_file_size h u).1 = some n →
        MAX_MEMORY_SIZE ≤ n →
          (handle_url h mg d u).1 = (compute_checksum_from_download d u).1.1)
    ∧ (∀ (h : HeadOutcome) (mg : GetOutcome) (d : DlWorld) (u : String)
        (c : String), (get_remote_file_size h u).1 = none →
        (compute_checksum_from_memory mg u).1 = some c →
          (handle_url h mg d u).1 = some c)
    ∧ (∀ (h : HeadOutcome) (mg : GetOutcome) (d : DlWorld) (u : String),
        (get_remote_file_size h u).1 = none →
        (compute_checksum_from_memory mg u).1 = none →
          (handle_url h mg d u).1 = (compute_checksum_from_download d u).1.1)
    ∧ (∀ (w : World) (argv : List String), argv.length = 2 →
        is_url (argv.getD 1 "") = Except.ok true →
        (get_remote_file_size w.head (argv.getD 1 "")).1 = none →
        (compute_checksum_from_memory w.memGet (argv.getD 1 "")).1 = none →
        (compute_checksum_from_download w.dl (argv.getD 1 "")).1.1 = none →
          main w argv = Outcome.exited 1
            (handle_url w.head w.memGet w.dl (argv.getD 1 "")).2) := by
  have hmem : ∀ (h : HeadOutcome) (mg : GetOutcome) (d : DlWorld)
      (u : String) (n : Int), (get_remote_file_size h u).1 = some n →
      n < MAX_MEMORY_SIZE →
        (handle_url h mg d u).1 = (compute_checksum_from_memory mg u).1 := by
    intro h mg d u n hs hn
    simp only [handle_url, hs, strategy_flow, if_pos hn]
  have hdl : ∀ (h : HeadOutcome) (mg : GetOutcome) (d : DlWorld)
      (u : String) (n : Int), (get_remote_file_size h u).1 = some n →
      MAX_MEMORY_SIZE ≤ n →
        (handle_url h mg d u).1 = (compute_checksum_from_download d u).1.1 := by
    intro h mg d u n hs hn
    simp only [handle_url, hs, strategy_flow, if_neg (not_lt.mpr hn)]
  have hun1 : ∀ (h : HeadOutcome) (mg : GetOutcome) (d : DlWorld)
      (u : String) (c : String), (get_remote_file_size h u).1 = none →
      (compute_checksum_from_memory mg u).1 = some c →
        (handle_url h mg d u).1 = some c := by
    intro h mg d u c hs hm
    simp only [handle_url, hs, strategy_flow, hm]
  have hun2 : ∀ (h : HeadOutcome) (mg : GetOutcome) (d : DlWorld)
      (u : String), (get_remote_file_size h u).1 = none →
      (compute_checksum_from_memory mg u).1 = none →
        (handle_url h mg d u).1 = (compute_checksum_from_download d u).1.1 := by
    intro h mg d u hs hm
    simp only [handle_url, hs, strategy_flow, hm]
  refine ⟨hmem, hdl, hun1, hun2, ?_⟩
  intro w argv hlen hu hs hm hd
  have hnone : (handle_url w.head w.memGet w.dl (argv.getD 1 "")).1 = none :=
    (hun2 w.head w.memGet w.dl (argv.getD 1 "") hs hm).trans hd
  have hpair : handle_url w.head w.memGet w.dl (argv.getD 1 "")
      = (none, (handle_url w.head w.memGet w.dl (argv.getD 1 "")).2) := by
    rw [← hnone]
  have hres : resolve w (argv.getD 1 "")
      = Except.ok (none, (handle_url w.head w.memGet w.dl (argv.getD 1 "")).2) := by
    rw [resolve, hu, ← hpair]
  rw [main, if_neg (by rw [hlen]; exact fun h => h rfl), hres]

set_option maxRecDepth 400000 in
/-- Witness for C2: a declared size of 5 routes to the in-memory strategy,
9999999 to the temp-file strategy, a failed probe with a failing in-memory
attempt falls back to the download strategy, and when both fail the
invocation exits 1. -/
theorem c2_strategy_selection_witness :
    (handle_url (HeadOutcome.ok (some "5")) (GetOutcome.ok [7])
        ⟨true, GetOutcome.netError, true⟩ "http://h").1
      = (compute_checksum_from_memory (GetOutcome.ok [7]) "http://h").1
    ∧ (handle_url (HeadOutcome.ok (some "9999999")) (GetOutcome.netError)
        ⟨true, GetOutcome.ok [7], true⟩ "http://h").1
      = (compute_checksum_from_download ⟨true, GetOutcome.ok [7], true⟩ "http://h").1.1
    ∧ (handle_url HeadOutcome.netError (GetOutcome.netError)
        ⟨true, GetOutcome.ok [7], true⟩ "http://h").1
      = (compute_checksum_from_download ⟨true, GetOutcome.ok [7], true⟩ "http://h").1.1
    ∧ main W0 ["main.py", "http://h"]
      = Outcome.exited 1 (handle_url W0.head W0.memGet W0.dl "http://h").2 :=
  ⟨c2_strategy_selection.1 _ _ _ _ 5 (by decide) (by decide),
   c2_strategy_selection.2.1 _ _ _ _ 9999999 (by decide) (by decide),
   c2_strategy_selection.2.2.2.1 _ _ _ _ (by decide) (by decide),
   c2_strategy_selection.2.2.2.2 W0 ["main.py", "http://h"] (by decide)
     rfl (by decide) (by decide) (by decide)⟩

/-- Claim C4: the entry point exits with code 1 and prints no checksum line
when the argument count is wrong or when no checksum was produced (including
the crash path, where CPython's exit status is 1); when a checksum was
produced it exits 0 after printing exactly one `Checksum: <value>` line. -/
theorem c4_entry_point :
    (∀ (w : World) (argv : List String), argv.length ≠ 2 →
        main w argv = Outcome.exited 1 [Msg.usage]
          ∧ ∀ c, Msg.checksumLine c ∉ (main w argv).outLines)
    ∧ (∀ (w : World) (argv : List String) (out : List Msg),
        argv.length = 2 → resolve w (argv.getD 1 "") = Except.ok (none, out) →
          main w argv = Outcome.exited 1 out
            ∧ ∀ c, Msg.checksumLine c ∉ (main w argv).outLines)
    ∧ (∀ (w : World) (argv : List String) (c : String) (out : List Msg),
        argv.length = 2 → resolve w (argv.getD 1 "") = Except.ok (some c, out) →
          main w argv = Outcome.exited 0 (out ++ [Msg.checksumLine c])
            ∧ ∀ c2, Msg.checksumLine c2 ∉ out)
    ∧ (∀ (w : World) (argv : List String) (e : Unit), argv.length = 2 →
        resolve w (argv.getD 1 "") = Except.error e →
          main w argv = Outcome.crashed [] ∧ (main w argv).exitCode = 1
            ∧ ∀ c, Msg.checksumLine c ∉ (main w argv).outLines) := by
  refine ⟨?_, ?_, ?_, ?_⟩
  · intro w argv hlen
    have hm : main w argv = Outcome.exited 1 [Msg.usage] := by
      rw [main, if_pos hlen]
    refine ⟨hm, ?_⟩
    intro c
    rw [hm]
    simp [Outcome.outLines]
  · intro w argv out hlen hres
    have hm : main w argv = Outcome.exited 1 out := by
      rw [main, if_neg (by rw [hlen]; exact fun h => h rfl), hres]
    refine ⟨hm, ?_⟩
    intro c
    rw [hm]
    simpa [Outcome.outLines] using resolve_no_ck w _ none out c hres
  · intro w argv c out hlen hres
    have hc : c ≠ "" :=
      length_24_ne_empty c (resolve_length w _ c out hres)
    have hm : main w argv = Outcome.exited 0 (out ++ [Msg.checksumLine c]) := by
      rw [main, if_neg (by rw [hlen]; exact fun h => h rfl), hres]
      exact if_neg hc
    exact ⟨hm, fun c2 => resolve_no_ck w _ (some c) out c2 hres⟩
  · intro w argv e hlen hres
    have hm : main w argv = Outcome.crashed [] := by
      rw [main, if_neg (by rw [hlen]; exact fun h => h rfl), hres]
    refine ⟨hm, ?_, ?_⟩
    · rw [hm]
      rfl
    · intro c
      rw [hm]
      simp [Outcome.outLines]

set_option maxRecDepth 400000 in
/-- Witness for C4: a usage error exits 1; a resolved checksum prints the
checksum line and exits 0; a missing file exits 1; a crashing classification
has exit status 1 with no checksum line. -/
theorem c4_entry_point_witness :
    main W0 ["main.py"] = Outcome.exited 1 [Msg.usage]
      ∧ main Whello ["main.py", "f.txt"]
        = Outcome.exited 0 [Msg.checksumLine "XUFAKrxLKna5cZ2REBfFkg=="]
      ∧ main W0 ["main.py", "nofile.txt"]
        = Outcome.exited 1 [Msg.errFileNotFound "nofile.txt"]
      ∧ (main W0 ["main.py", "http://["]).exitCode = 1 := by
  refine ⟨(c4_entry_point.1 W0 ["main.py"] (by decide)).1, ?_, ?_, ?_⟩
  · have h := (c4_entry_point.2.2.1 Whello ["main.py", "f.txt"]
      "XUFAKrxLKna5cZ2REBfFkg==" [] (by decide) rfl).1
    simpa using h
  · exact (c4_entry_point.2.1 W0 ["main.py", "nofile.txt"]
      [Msg.errFileNotFound "nofile.txt"] (by decide) rfl).1
  · exact (c4_entry_point.2.2.2 W0 ["main.py", "http://["] () (by decide)
      rfl).2.1

/-- Claim C10: whenever any of the three checksum-computing functions
returns a checksum, it is the Base64 of a 16-byte digest — exactly 24
characters, hence nonempty — so the entry point's truthiness test on the
checksum distinguishes success from failure exactly. -/
theorem c10_checksum_shape :
    (∀ (fs : FileSystem) (p c : String),
        (compute_checksum fs p).1 = some c → c.length = 24 ∧ c ≠ "")
    ∧ (∀ (g : GetOutcome) (u c : String),
        (compute_checksum_from_memory g u).1 = some c →
          c.length = 24 ∧ c ≠ "")
    ∧ (∀ (d : DlWorld) (u c : String),
        (compute_checksum_from_download d u).1.1 = some c →
          c.length = 24 ∧ c ≠ "")
    ∧ (∀ (w : World) (argv : List String) (r : Option String)
        (out : List Msg), argv.length = 2 →
        resolve w (argv.getD 1 "") = Except.ok (r, out) →
          ((∃ o, main w argv = Outcome.exited 0 o) ↔ r ≠ none)) := by
  refine ⟨?_, ?_, ?_, ?_⟩
  · intro fs p c h
    have := compute_checksum_length fs p c h
    exact ⟨this, length_24_ne_empty c this⟩
  · intro g u c h
    have := memory_length g u c h
    exact ⟨this, length_24_ne_empty c this⟩
  · intro d u c h
    have := download_length d u c h
    exact ⟨this, length_24_ne_empty c this⟩
  · intro w argv r out hlen hres
    have hif : (if argv.length ≠ 2 then Outcome.exited 1 [Msg.usage]
        else match resolve w (argv.getD 1 "") with
          | .error _ => Outcome.crashed []
          | .ok (some c, out) =>
              if c = "" then Outcome.exited 1 out
              else Outcome.exited 0 (out ++ [Msg.checksumLine c])
          | .ok (none, out) => Outcome.exited 1 out) = main w argv := rfl
    cases r with
    | none =>
        have hm : main w argv = Outcome.exited 1 out := by
          rw [main, if_neg (by rw [hlen]; exact fun h => h rfl), hres]
        constructor
        · rintro ⟨o, ho⟩
          rw [hm] at ho
          exact absurd ho (by simp)
        · intro h
          exact absurd rfl h
    | some c =>
        have hc : c ≠ "" :=
          length_24_ne_empty c (resolve_length w _ c out hres)
        have hm : main w argv
            = Outcome.exited 0 (out ++ [Msg.checksumLine c]) := by
          rw [main, if_neg (by rw [hlen]; exact fun h => h rfl), hres]
          exact if_neg hc
        constructor
        · intro _
          simp
        · intro _
          exact ⟨out ++ [Msg.checksumLine c], hm⟩

set_option maxRecDepth 400000 in
/-- Witness for C10: the checksum of the `b"hello"` file has 24 characters
and is nonempty, and on a failing resolution `main` cannot exit 0. -/
theorem c10_checksum_shape_witness :
    (("XUFAKrxLKna5cZ2REBfFkg==" : String).length = 24
        ∧ ("XUFAKrxLKna5cZ2REBfFkg==" : String) ≠ "")
      ∧ ¬∃ o, main W0 ["main.py", "nofile.txt"] = Outcome.exited 0 o :=
  ⟨c10_checksum_shape.1 (fun _ => FileContent.found [104, 101, 108, 108, 111])
      "hello.txt" "XUFAKrxLKna5cZ2REBfFkg==" (by decide),
   fun hex =>
     ((c10_checksum_shape.2.2.2 W0 ["main.py", "nofile.txt"] none
       [Msg.errFileNotFound "nofile.txt"] (by decide) rfl).mp hex) rfl⟩

/-- The in-memory strategy never prints the unknown-size warning. -/
theorem memory_no_warn (g : GetOutcome) (u : String) :
    Msg.warnUnknownSize ∉ (compute_checksum_from_memory g u).2 := by
  cases g <;> simp [compute_checksum_from_memory]

/-- The in-memory strategy never prints the fallback notice. -/
theorem memory_no_fallback (g : GetOutcome) (u : String) :
    Msg.infoFallback ∉ (compute_checksum_from_memory g u).2 := by
  cases g <;> simp [compute_checksum_from_memory]

/-- Claim C8: every network-layer failure of the size probe yields the
unknown-size result together with a diagnostic line, the flow continues to
strategy selection, and the unknown result is distinct from a size of zero:
it routes to the in-memory-with-fallback branch, never to the small-file
branch. -/
theorem c8_probe_failure :
    (∀ u, get_remote_file_size HeadOutcome.netError u
        = (none, [Msg.errSizeProbe u]))
    ∧ (∀ u, get_remote_file_size HeadOutcome.unexpected u
        = (none, [Msg.errSizeProbeUnexpected u]))
    ∧ (∀ (h : HeadOutcome) (mg : GetOutcome) (d : DlWorld) (u : String),
        handle_url h mg d u
          = ((strategy_flow (get_remote_file_size h u).1 mg d u).1,
             (get_remote_file_size h u).2
               ++ (strategy_flow (get_remote_file_size h u).1 mg d u).2))
    ∧ (∀ (mg : GetOutcome) (d : DlWorld) (u : String),
        (compute_checksum_from_memory mg u).1 = none →
          (strategy_flow none mg d u).1
              = (compute_checksum_from_download d u).1.1
            ∧ (strategy_flow (some 0) mg d u).1 = none
            ∧ Msg.warnUnknownSize ∈ (strategy_flow none mg d u).2
            ∧ Msg.infoSizeMem 0 ∈ (strategy_flow (some 0) mg d u).2
            ∧ Msg.warnUnknownSize ∉ (strategy_flow (some 0) mg d u).2
            ∧ Msg.infoFallback ∉ (strategy_flow (some 0) mg d u).2) := by
  refine ⟨fun u => rfl, fun u => rfl, fun h mg d u => rfl, ?_⟩
  intro mg d u hm
  have h0 : ((0 : Int) < MAX_MEMORY_SIZE) := by decide
  refine ⟨?_, ?_, ?_, ?_, ?_, ?_⟩
  · simp only [strategy_flow, hm]
  · simp only [strategy_flow, if_pos h0, hm]
  · simp only [strategy_flow, hm]
    simp
  · simp only [strategy_flow, if_pos h0]
    simp
  · simp only [strategy_flow, if_pos h0]
    simp only [List.mem_cons, not_or]
    exact ⟨by simp, memory_no_warn mg u⟩
  · simp only [strategy_flow, if_pos h0]
    simp only [List.mem_cons, not_or]
    exact ⟨by simp, memory_no_fallback mg u⟩

set_option maxRecDepth 400000 in
/-- Witness for C8 with a failing probe and a failing in-memory attempt. -/
theorem c8_probe_failure_witness :
    get_remote_file_size HeadOutcome.netError "http://h"
        = (none, [Msg.errSizeProbe "http://h"])
      ∧ (strategy_flow none GetOutcome.netError ⟨true, GetOutcome.ok [9], true⟩
          "http://h").1
        = (compute_checksum_from_download ⟨true, GetOutcome.ok [9], true⟩
          "http://h").1.1
      ∧ (strategy_flow (some 0) GetOutcome.netError ⟨true, GetOutcome.ok [9], true⟩
          "http://h").1 = none :=
  ⟨c8_probe_failure.1 "http://h",
   (c8_probe_failure.2.2.2 GetOutcome.netError ⟨true, GetOutcome.ok [9], true⟩
     "http://h" (by decide)).1,
   (c8_probe_failure.2.2.2 GetOutcome.netError ⟨true, GetOutcome.ok [9], true⟩
     "http://h" (by decide)).2.1⟩

/-- Counterexample to C6 as stated: on the argument `http://[` the scheme
is `http`, yet the invocation is neither handled remotely nor treated as a
local path — `urlparse` raises `ValueError` and classification itself
fails. -/
theorem c6_counterexample :
    urlparse_scheme "http://[" = "http"
      ∧ is_url "http://[" = Except.error ()
      ∧ resolve W0 "http://[" = Except.error () :=
  ⟨rfl, rfl, rfl⟩

/-- Claim C6, amended: for every argument on which URI parsing does not
raise, the argument is treated as remote iff the parsed scheme is exactly
`http` or `https`, and every other such argument is treated as a local
filesystem path. -/
theorem c6_classification (w : World) (p : String)
    (h : urlparse_raises p = false) :
    is_url p
        = Except.ok (urlparse_scheme p == "http" || urlparse_scheme p == "https")
      ∧ ((urlparse_scheme p = "http" ∨ urlparse_scheme p = "https") →
          resolve w p = Except.ok (handle_url w.head w.memGet w.dl p))
      ∧ (¬(urlparse_scheme p = "http" ∨ urlparse_scheme p = "https") →
          resolve w p = Except.ok (compute_checksum w.fs p)) := by
  refine ⟨by simp [is_url, h], ?_, ?_⟩
  · intro hs
    have hb : (urlparse_scheme p == "http" || urlparse_scheme p == "https")
        = true := by
      rcases hs with h1 | h1 <;> simp [h1]
    rw [resolve, is_url, if_neg (by simp [h]), hb]
  · intro hs
    push_neg at hs
    have hb : (urlparse_scheme p == "http" || urlparse_scheme p == "https")
        = false := by
      simp [hs.1, hs.2]
    rw [resolve, is_url, if_neg (by simp [h]), hb]

set_option maxRecDepth 400000 in
/-- Witness for C6 (amended): an `https` URL goes to the remote branch, a
plain filename goes to the local branch. -/
theorem c6_classification_witness :
    resolve W0 "https://h/f" = Except.ok (handle_url W0.head W0.memGet W0.dl
        "https://h/f")
      ∧ resolve W0 "data.txt" = Except.ok (compute_checksum W0.fs "data.txt") :=
  ⟨(c6_classification W0 "https://h/f" (by decide)).2.1 (Or.inr (by decide)),
   (c6_classification W0 "data.txt" (by decide)).2.2 (by decide)⟩

/-- Counterexample to C7 as stated: `compute_checksum` performs no separate
existence check — its operation sequence on an absent path is the single
`open` attempt, with no `os.path.exists` step before it. -/
theorem c7_counterexample :
    compute_checksum_ops (fun _ => FileContent.notFound) "missing.txt"
        = [LocalOp.openRead "missing.txt"]
      ∧ LocalOp.checkExists "missing.txt"
        ∉ compute_checksum_ops (fun _ => FileContent.notFound) "missing.txt" :=
  ⟨rfl, by decide⟩

/-- Claim C7, amended: absence of a local path is detected by the open
attempt itself (`FileNotFoundError`) rather than by a prior existence
check; in that case the invocation fails with the NotFound diagnostic and
exit code 1 before any hashing is attempted. -/
theorem c7_absent_fails_before_hash (w : World) (a p : String)
    (h : w.fs p = FileContent.notFound) (hu : is_url p = Except.ok false) :
    compute_checksum w.fs p = (none, [Msg.errFileNotFound p])
      ∧ LocalOp.hashData ∉ compute_checksum_ops w.fs p
      ∧ main w [a, p] = Outcome.exited 1 [Msg.errFileNotFound p] := by
  have hcc : compute_checksum w.fs p = (none, [Msg.errFileNotFound p]) := by
    simp [compute_checksum, h]
  refine ⟨hcc, by simp [compute_checksum_ops, h], ?_⟩
  have hres : resolve w p = Except.ok (none, [Msg.errFileNotFound p]) := by
    rw [resolve, hu, hcc]
  have hp : ([a, p].getD 1 "") = p := rfl
  rw [main, if_neg (by simp), hp, hres]

/-- Witness for C7 (amended) on a concrete absent path. -/
theorem c7_absent_fails_before_hash_witness :
    compute_checksum W0.fs "missing.bin"
        = (none, [Msg.errFileNotFound "missing.bin"])
      ∧ main W0 ["main.py", "missing.bin"]
        = Outcome.exited 1 [Msg.errFileNotFound "missing.bin"] :=
  ⟨(c7_absent_fails_before_hash W0 "main.py" "missing.bin" rfl rfl).1,
   (c7_absent_fails_before_hash W0 "main.py" "missing.bin" rfl rfl).2.2⟩

/-- Claim C9, shown false of the code at a concrete input: on the argument
`http://[` the `ValueError` raised by `urlparse` inside `is_url` is not
handled anywhere — `main` neither prints a diagnostic nor exits via its own
exit code; the exception unwinds past the entry point. -/
theorem c9_uncaught_valueerror :
    main W0 ["main.py", "http://["] = Outcome.crashed []
      ∧ main W0 ["main.py", "//["] = Outcome.crashed [] :=
  ⟨rfl, rfl⟩

end ChecksumCalculator
